import Mathlib

/-!
# Verification of the nutrition calculator and evaluation engine

Shallow embedding of the repository's unit/nutrition calculator
(`src/lib/nutrition-calculator.ts`) and evaluation metrics engine
(`src/lib/evaluation/metrics.ts`).

Modelling conventions:
* JavaScript numbers are modelled as rationals (`ℚ`); the one place where
  IEEE special values are semantically load-bearing (`aggregateMetrics` on an
  empty batch, which divides 0 by 0) uses the `JSNum` type, which adds
  `nan`/`inf`/`negInf` to `ℚ`.
* Optional (`number | undefined` / nullable) fields are `Option ℚ`;
  JavaScript truthiness of such a field (`undefined`, `0` are falsy) is
  `optTruthy`; `x || 0` is `orZero`.
* `Math.round` is round-half-up (`⌊q + 1/2⌋`), which is JavaScript's
  behaviour for rationals exactly representable here.
* `String.prototype.includes` is exact substring containment on the
  character list (`containsChars`); `toLowerCase`/`trim`/`endsWith`/
  `slice(0, -1)` are structural character-list functions (`jsToLower`,
  `jsTrim`, `jsEndsWith`, `jsStripLast`), faithful to the JavaScript
  methods on the ASCII data this repository handles.
* The `const fatAccuracy = Math.max(0, 1 - fatAccuracy)` line of
  `calculateMetrics` reads the binding inside its own initializer, i.e. in
  the temporal dead zone: every call throws a `ReferenceError` there, so
  `calculateMetrics` is embedded as an `Except` value that always errors
  after performing the straight-line computation that precedes that line.
-/

/-! ## JavaScript number semantics needed for the embedding -/

/-- JavaScript `number` values relevant to this code base: rationals plus
the IEEE special values NaN and ±Infinity (signed zero is not modelled;
it is never observable in the functions verified here). -/
inductive JSNum where
  | nan
  | inf
  | negInf
  | num (val : ℚ)
deriving DecidableEq

/-- JavaScript `+` on `JSNum`: NaN propagates, `Infinity + -Infinity = NaN`,
infinities absorb finite values. -/
def jsAdd : JSNum → JSNum → JSNum
  | .nan, _ => .nan
  | _, .nan => .nan
  | .inf, .negInf => .nan
  | .negInf, .inf => .nan
  | .inf, _ => .inf
  | _, .inf => .inf
  | .negInf, _ => .negInf
  | _, .negInf => .negInf
  | .num a, .num b => .num (a + b)

/-- JavaScript `/` on `JSNum`: NaN propagates, `±∞/±∞ = NaN`, `0/0 = NaN`,
nonzero/0 gives a signed infinity, finite/infinite gives 0. -/
def jsDiv : JSNum → JSNum → JSNum
  | .nan, _ => .nan
  | _, .nan => .nan
  | .inf, .inf => .nan
  | .inf, .negInf => .nan
  | .negInf, .inf => .nan
  | .negInf, .negInf => .nan
  | .inf, .num b => if b < 0 then .negInf else .inf
  | .negInf, .num b => if b < 0 then .inf else .negInf
  | .num _, .inf => .num 0
  | .num _, .negInf => .num 0
  | .num a, .num b =>
      if b = 0 then (if a = 0 then .nan else if a < 0 then .negInf else .inf)
      else .num (a / b)

/-- JavaScript `Math.round` on an exact rational: round half toward +∞. -/
def jsRound (q : ℚ) : ℤ := ⌊q + 1 / 2⌋

/-- Truthiness of an optional numeric field: `undefined` and `0` are falsy. -/
def optTruthy : Option ℚ → Bool
  | none => false
  | some q => q != 0

/-- JavaScript `x || 0` on an optional numeric field. -/
def orZero : Option ℚ → ℚ
  | none => 0
  | some q => q

/-- Does `needle` occur at the head of `hay`? (`List`-level prefix test.) -/
def startsWithChars : List Char → List Char → Bool
  | [], _ => true
  | _ :: _, [] => false
  | a :: as, b :: bs => a == b && startsWithChars as bs

/-- Does `needle` occur as a contiguous substring of `hay`? -/
def containsChars (hay needle : List Char) : Bool :=
  match hay with
  | [] => needle.isEmpty
  | _ :: t => startsWithChars needle hay || containsChars t needle

/-- JavaScript `s.includes(sub)`: exact substring containment. -/
def jsIncludes (s sub : String) : Bool := containsChars s.data sub.data

/-- JavaScript `s.toLowerCase()`, character by character. -/
def jsToLower (s : String) : String := String.mk (s.data.map Char.toLower)

/-- JavaScript `s.trim()`: drop whitespace from both ends. -/
def jsTrim (s : String) : String :=
  String.mk (((s.data.dropWhile Char.isWhitespace).reverse.dropWhile Char.isWhitespace).reverse)

/-- JavaScript `s.endsWith(suffix)`. -/
def jsEndsWith (s suffix : String) : Bool :=
  startsWithChars suffix.data.reverse s.data.reverse

/-- JavaScript `s.slice(0, -1)`: drop the last character. -/
def jsStripLast (s : String) : String := String.mk s.data.dropLast

/-! ## Data model (`src/types/usda.ts`, `src/types/openai.ts`,
`src/types/evaluation.ts`, Prisma `FoodItem`) -/

/-- Source `NutritionData` (normalized internal nutrition format):
`calories/protein/carbs/fat` are required, `fiber/sugar/sodium` optional. -/
structure NutritionData where
  calories : ℚ
  protein : ℚ
  carbs : ℚ
  fat : ℚ
  fiber : Option ℚ
  sugar : Option ℚ
  sodium : Option ℚ
deriving DecidableEq

/-- Prisma `FoodItem` catalog row, restricted to the fields the nutrition
calculator reads (per-100g values; DB bookkeeping columns omitted). -/
structure FoodItem where
  description : String
  calories : ℚ
  protein : ℚ
  carbs : ℚ
  fat : ℚ
  fiber : Option ℚ
  sugar : Option ℚ
  sodium : Option ℚ
deriving DecidableEq

/-- Source `ServingInfo`: serving size of a food item. -/
structure ServingInfo where
  quantity : ℚ
  unit : String
  grams : ℚ
deriving DecidableEq

/-- Source `FoodItemWithServing extends FoodItem`: food item plus its serving. -/
structure FoodItemWithServing extends FoodItem where
  serving : ServingInfo
deriving DecidableEq

/-- Source `DetectedFood`: one food item from the AI image analysis. -/
structure DetectedFood where
  name : String
  quantity : ℚ
  unit : String
  confidence : ℚ
deriving DecidableEq

/-- Source `AIAnalysisResult`: complete AI analysis result. -/
structure AIAnalysisResult where
  foods : List DetectedFood
  confidence : ℚ
  notes : Option String
deriving DecidableEq

/-- Source `FoodGroundTruth`: one hand-labeled food of a benchmark item. -/
structure FoodGroundTruth where
  name : String
  quantity : ℚ
  unit : String
  calories : ℚ
  protein : ℚ
  carbs : ℚ
  fat : ℚ
deriving DecidableEq

/-- Source `GroundTruth`: hand-labeled foods plus authoritative totals. -/
structure GroundTruth where
  foods : List FoodGroundTruth
  totalCalories : ℚ
  totalProtein : ℚ
  totalCarbs : ℚ
  totalFat : ℚ
deriving DecidableEq

/-- Source `EvaluationMetrics`. Fields are `JSNum` because `aggregateMetrics` can
populate them with NaN (division 0/0 on an empty batch). -/
structure EvaluationMetrics where
  precision : JSNum
  «recall» : JSNum
  f1Score : JSNum
  foodDetectionAccuracy : JSNum
  quantityAccuracy : JSNum
  avgQuantityError : JSNum
  calorieAccuracy : JSNum
  proteinAccuracy : JSNum
  carbsAccuracy : JSNum
  fatAccuracy : JSNum
  overallScore : JSNum
deriving DecidableEq

/-! ## `src/lib/nutrition-calculator.ts` -/

/-- Source `calculateNutritionForServing`: scale a per-100g profile to the grams
actually consumed.  An optional nutrient is emitted only when the source
field is truthy (`foodItem.fiber ? foodItem.fiber * scaleFactor : undefined`). -/
def calculateNutritionForServing (foodItem : FoodItem) (serving : ServingInfo) :
    NutritionData :=
  let scaleFactor := serving.grams / 100
  { calories := foodItem.calories * scaleFactor
    protein := foodItem.protein * scaleFactor
    carbs := foodItem.carbs * scaleFactor
    fat := foodItem.fat * scaleFactor
    fiber := if optTruthy foodItem.fiber then some (orZero foodItem.fiber * scaleFactor) else none
    sugar := if optTruthy foodItem.sugar then some (orZero foodItem.sugar * scaleFactor) else none
    sodium := if optTruthy foodItem.sodium then some (orZero foodItem.sodium * scaleFactor) else none }

/-- The `reduce` accumulator of `calculateTotalNutrition`: sums nutrition
across items; optional nutrients are accumulated with `(acc.x || 0) + (n.x || 0)`,
so the accumulator always carries them as present values (seeded with 0). -/
def totalNutritionFold (items : List FoodItemWithServing) : NutritionData :=
  items.foldl
    (fun acc item =>
      let nutrition := calculateNutritionForServing item.toFoodItem item.serving
      { calories := acc.calories + nutrition.calories
        protein := acc.protein + nutrition.protein
        carbs := acc.carbs + nutrition.carbs
        fat := acc.fat + nutrition.fat
        fiber := some (orZero acc.fiber + orZero nutrition.fiber)
        sugar := some (orZero acc.sugar + orZero nutrition.sugar)
        sodium := some (orZero acc.sodium + orZero nutrition.sodium) })
    { calories := 0, protein := 0, carbs := 0, fat := 0
      fiber := some 0, sugar := some 0, sodium := some 0 }

/-- Source `calculateTotalNutrition`: sum then round (calories to integer, macros to
one decimal); an optional nutrient appears in the output only when its
accumulated total is `> 0`. -/
def calculateTotalNutrition (items : List FoodItemWithServing) : NutritionData :=
  let totals := totalNutritionFold items
  { calories := (jsRound totals.calories : ℚ)
    protein := (jsRound (totals.protein * 10) : ℚ) / 10
    carbs := (jsRound (totals.carbs * 10) : ℚ) / 10
    fat := (jsRound (totals.fat * 10) : ℚ) / 10
    fiber := if 0 < orZero totals.fiber then some ((jsRound (orZero totals.fiber * 10) : ℚ) / 10) else none
    sugar := if 0 < orZero totals.sugar then some ((jsRound (orZero totals.sugar * 10) : ℚ) / 10) else none
    sodium := if 0 < orZero totals.sodium then some (jsRound (orZero totals.sodium) : ℚ) else none }

/-- Source `SERVING_CONVERSIONS`: static unit-to-grams conversion table, in
source order.  The decimal entries 28.35 and 453.59 are written as exact
rationals via `mkRat`. -/
def SERVING_CONVERSIONS : List (String × ℚ) :=
  [("cup", 240),
   ("fl oz", 30),
   ("tablespoon", 15),
   ("tbsp", 15),
   ("teaspoon", 5),
   ("tsp", 5),
   ("g", 1),
   ("gram", 1),
   ("kg", 1000),
   ("kilogram", 1000),
   ("oz", mkRat 2835 100),
   ("ounce", mkRat 2835 100),
   ("lb", mkRat 45359 100),
   ("pound", mkRat 45359 100),
   ("piece", 100),
   ("slice", 30),
   ("serving", 100),
   ("whole", 150),
   ("medium", 120),
   ("large", 180),
   ("small", 80)]

/-- Truthiness of a table lookup result (`if (conversionFactor)`):
`undefined` and `0` are falsy. -/
def lookupTruthy (o : Option ℚ) : Bool :=
  match o with
  | none => false
  | some q => q != 0

/-- Source `convertToGrams`: normalize the unit (lowercase + trim), look it up in
`SERVING_CONVERSIONS`; on failure retry with a trailing `'s'` stripped;
on failure again default to 100g per serving. -/
def convertToGrams (quantity : ℚ) (unit : String) : ℚ :=
  let normalizedUnit := jsTrim (jsToLower unit)
  let conversionFactor := List.lookup normalizedUnit SERVING_CONVERSIONS
  if lookupTruthy conversionFactor then quantity * conversionFactor.getD 0
  else if jsEndsWith normalizedUnit ("s") then
    let singularFactor := List.lookup (jsStripLast normalizedUnit) SERVING_CONVERSIONS
    if lookupTruthy singularFactor then quantity * singularFactor.getD 0
    else quantity * 100
  else quantity * 100

/-- Source `estimateGramsFromDescription`: keyword heuristics over the lowercased
free-text description; first match wins; default 100g per unit. -/
def estimateGramsFromDescription (description : String) (quantity : ℚ) : ℚ :=
  let lowerDesc := jsToLower description
  if jsIncludes lowerDesc ("whole") || jsIncludes lowerDesc ("entire") then quantity * 150
  else if jsIncludes lowerDesc ("slice") then quantity * 30
  else if jsIncludes lowerDesc ("piece") || jsIncludes lowerDesc ("chunk") then quantity * 100
  else if jsIncludes lowerDesc ("cup") then quantity * 240
  else if jsIncludes lowerDesc ("tablespoon") || jsIncludes lowerDesc ("tbsp") then quantity * 15
  else if jsIncludes lowerDesc ("teaspoon") || jsIncludes lowerDesc ("tsp") then quantity * 5
  else quantity * 100

/-- Result record of `calculateMacroPercentages`. -/
structure MacroPercentages where
  proteinPercent : ℤ
  carbsPercent : ℤ
  fatPercent : ℤ
deriving DecidableEq

/-- Source `calculateMacroPercentages`: percentage of calories from each macro;
`nutrition.calories || 1` substitutes 1 for a falsy (zero) calorie total. -/
def calculateMacroPercentages (nutrition : NutritionData) : MacroPercentages :=
  let totalCalories := if nutrition.calories = 0 then 1 else nutrition.calories
  let proteinCalories := nutrition.protein * 4
  let carbsCalories := nutrition.carbs * 4
  let fatCalories := nutrition.fat * 9
  { proteinPercent := jsRound (proteinCalories / totalCalories * 100)
    carbsPercent := jsRound (carbsCalories / totalCalories * 100)
    fatPercent := jsRound (fatCalories / totalCalories * 100) }

/-! ## `src/lib/evaluation/metrics.ts` -/

/-- Helper of `normalizeFood`: collapse each whitespace run to a single
space (`replace(/\s+/g, ' ')`); the flag records whether the previous
character was whitespace. -/
def collapseSpacesAux : Bool → List Char → List Char
  | _, [] => []
  | prevWs, c :: cs =>
      if c.isWhitespace then
        if prevWs then collapseSpacesAux true cs
        else ' ' :: collapseSpacesAux true cs
      else c :: collapseSpacesAux false cs

/-- Source `normalizeFood(name)`: `name.toLowerCase().trim().replace(/\s+/g, ' ')`. -/
def normalizeFood (name : String) : String :=
  String.mk (collapseSpacesAux false (jsTrim (jsToLower name)).data)

/-- Source `foodsMatch`: fuzzy name match — equal after normalization, or one
normalized name contains the other as a substring. -/
def foodsMatch (food1 food2 : String) : Bool :=
  let norm1 := normalizeFood food1
  let norm2 := normalizeFood food2
  if norm1 = norm2 then true
  else if jsIncludes norm1 norm2 || jsIncludes norm2 norm1 then true
  else false

/-- Normalized detected food names, in order. -/
def detectedFoodsOf (aiResult : AIAnalysisResult) : List String :=
  aiResult.foods.map (fun f => normalizeFood f.name)

/-- Normalized ground-truth food names, in order. -/
def actualFoodsOf (groundTruth : GroundTruth) : List String :=
  groundTruth.foods.map (fun f => normalizeFood f.name)

/-- Inner loop of the true-positive pass: for one detected name, scan the
actual names with their indices; every not-yet-claimed matching actual index
is claimed (the source loop has no break, so the scan continues after a
match).  State is `(truePositives, matchedActual)`. -/
def tpInnerLoop (detected : String) : List String → ℕ → (ℕ × List ℕ) → (ℕ × List ℕ)
  | [], _, st => st
  | actual :: rest, index, st =>
      tpInnerLoop detected rest (index + 1)
        (if !st.2.contains index && foodsMatch detected actual then (st.1 + 1, index :: st.2)
         else st)

/-- Outer loop of the true-positive pass: fold the inner loop over all
detected names, starting from zero true positives and no claimed indices. -/
def tpLoop (detectedFoods actualFoods : List String) : ℕ × List ℕ :=
  detectedFoods.foldl (fun st detected => tpInnerLoop detected actualFoods 0 st) (0, [])

/-- Source `truePositives` as computed by `calculateMetrics`. -/
def truePositivesOf (aiResult : AIAnalysisResult) (groundTruth : GroundTruth) : ℕ :=
  (tpLoop (detectedFoodsOf aiResult) (actualFoodsOf groundTruth)).1

/-- Source `falsePositives = detectedFoods.length - truePositives` (an integer:
the source value can be negative). -/
def falsePositivesOf (aiResult : AIAnalysisResult) (groundTruth : GroundTruth) : ℤ :=
  (detectedFoodsOf aiResult).length - truePositivesOf aiResult groundTruth

/-- Source `falseNegatives = actualFoods.length - truePositives`. -/
def falseNegativesOf (aiResult : AIAnalysisResult) (groundTruth : GroundTruth) : ℤ :=
  (actualFoodsOf groundTruth).length - truePositivesOf aiResult groundTruth

/-- Source `precision = TP > 0 ? TP / (TP + FP) : 0`. -/
def precisionOf (aiResult : AIAnalysisResult) (groundTruth : GroundTruth) : ℚ :=
  if 0 < truePositivesOf aiResult groundTruth then
    (truePositivesOf aiResult groundTruth : ℚ) /
      ((truePositivesOf aiResult groundTruth : ℚ) + (falsePositivesOf aiResult groundTruth : ℚ))
  else 0

/-- Source `recall = TP > 0 ? TP / (TP + FN) : 0`. -/
def recallOf (aiResult : AIAnalysisResult) (groundTruth : GroundTruth) : ℚ :=
  if 0 < truePositivesOf aiResult groundTruth then
    (truePositivesOf aiResult groundTruth : ℚ) /
      ((truePositivesOf aiResult groundTruth : ℚ) + (falseNegativesOf aiResult groundTruth : ℚ))
  else 0

/-- Source `f1Score = precision + recall > 0 ? 2pr/(p+r) : 0`. -/
def f1ScoreOf (aiResult : AIAnalysisResult) (groundTruth : GroundTruth) : ℚ :=
  if 0 < precisionOf aiResult groundTruth + recallOf aiResult groundTruth then
    2 * precisionOf aiResult groundTruth * recallOf aiResult groundTruth /
      (precisionOf aiResult groundTruth + recallOf aiResult groundTruth)
  else 0

/-- Source `foodDetectionAccuracy = |actual| > 0 ? TP / |actual| : 0`. -/
def foodDetectionAccuracyOf (aiResult : AIAnalysisResult) (groundTruth : GroundTruth) : ℚ :=
  if 0 < (actualFoodsOf groundTruth).length then
    (truePositivesOf aiResult groundTruth : ℚ) / ((actualFoodsOf groundTruth).length : ℚ)
  else 0

/-- Quantity-error pass: for each AI food, `find` the first matching
ground-truth food; when found and its gram amount is positive, record the
relative gram error.  (`convertToGrams` is total, so the source's
`try/catch` wrapper has no effect.) -/
def quantityErrorsOf (aiResult : AIAnalysisResult) (groundTruth : GroundTruth) : List ℚ :=
  aiResult.foods.filterMap (fun aiFood =>
    match groundTruth.foods.find? (fun gtFood => foodsMatch aiFood.name gtFood.name) with
    | none => none
    | some matchingGT =>
        let aiGrams := convertToGrams aiFood.quantity aiFood.unit
        let gtGrams := convertToGrams matchingGT.quantity matchingGT.unit
        if 0 < gtGrams then some (|aiGrams - gtGrams| / gtGrams) else none)

/-- Source `avgQuantityError`: mean of the recorded errors, or 1 when none. -/
def avgQuantityErrorOf (aiResult : AIAnalysisResult) (groundTruth : GroundTruth) : ℚ :=
  let quantityErrors := quantityErrorsOf aiResult groundTruth
  if 0 < quantityErrors.length then quantityErrors.sum / (quantityErrors.length : ℚ) else 1

/-- Source `quantityAccuracy = max(0, 1 - avgQuantityError)`. -/
def quantityAccuracyOf (aiResult : AIAnalysisResult) (groundTruth : GroundTruth) : ℚ :=
  max 0 (1 - avgQuantityErrorOf aiResult groundTruth)

/-- JavaScript runtime errors observable in this module. -/
inductive JsError where
  | referenceError (name : String)
deriving DecidableEq

/-- Source `calculateMetrics`: runs the straight-line metric computation and then,
at `const fatAccuracy = Math.max(0, 1 - fatAccuracy);`, reads `fatAccuracy`
inside its own initializer.  A `const` binding is in its temporal dead zone
until its initializer finishes, so this line throws
`ReferenceError: Cannot access 'fatAccuracy' before initialization` on every
call; the `overallScore` computation and the `return` that follow are dead
code.  All computation before that line is total (no other throw source). -/
def calculateMetrics (aiResult : AIAnalysisResult) (groundTruth : GroundTruth) :
    Except JsError EvaluationMetrics :=
  let _precision := precisionOf aiResult groundTruth
  let _recall := recallOf aiResult groundTruth
  let _f1Score := f1ScoreOf aiResult groundTruth
  let _foodDetectionAccuracy := foodDetectionAccuracyOf aiResult groundTruth
  let _avgQuantityError := avgQuantityErrorOf aiResult groundTruth
  let _quantityAccuracy := quantityAccuracyOf aiResult groundTruth
  let calorieError : ℚ := 0
  let proteinError : ℚ := 0
  let carbsError : ℚ := 0
  let _calorieAccuracy := max 0 (1 - calorieError)
  let _proteinAccuracy := max 0 (1 - proteinError)
  let _carbsAccuracy := max 0 (1 - carbsError)
  Except.error (JsError.referenceError ("fatAccuracy"))

/-- Input record of `calculateNutritionAccuracy` (already-summed AI totals). -/
structure AITotals where
  calories : ℚ
  protein : ℚ
  carbs : ℚ
  fat : ℚ
deriving DecidableEq

/-- Result record of `calculateNutritionAccuracy`. -/
structure NutritionAccuracyResult where
  calorieAccuracy : ℚ
  proteinAccuracy : ℚ
  carbsAccuracy : ℚ
  fatAccuracy : ℚ
deriving DecidableEq

/-- Source `calculateNutritionAccuracy`: per-nutrient relative error against the
ground-truth totals (0 when the ground-truth total is not positive),
accuracy `max(0, 1 - error)`. -/
def calculateNutritionAccuracy (aiTotals : AITotals) (groundTruth : GroundTruth) :
    NutritionAccuracyResult :=
  let calorieError :=
    if 0 < groundTruth.totalCalories then
      |aiTotals.calories - groundTruth.totalCalories| / groundTruth.totalCalories
    else 0
  let proteinError :=
    if 0 < groundTruth.totalProtein then
      |aiTotals.protein - groundTruth.totalProtein| / groundTruth.totalProtein
    else 0
  let carbsError :=
    if 0 < groundTruth.totalCarbs then
      |aiTotals.carbs - groundTruth.totalCarbs| / groundTruth.totalCarbs
    else 0
  let fatError :=
    if 0 < groundTruth.totalFat then
      |aiTotals.fat - groundTruth.totalFat| / groundTruth.totalFat
    else 0
  { calorieAccuracy := max 0 (1 - calorieError)
    proteinAccuracy := max 0 (1 - proteinError)
    carbsAccuracy := max 0 (1 - carbsError)
    fatAccuracy := max 0 (1 - fatError) }

/-- The local `avg` helper of `aggregateMetrics`:
`arr.reduce((a, b) => a + b, 0) / arr.length` under JavaScript number
semantics — on an empty array this is `0 / 0 = NaN`. -/
def avg (arr : List JSNum) : JSNum :=
  jsDiv (arr.foldl jsAdd (JSNum.num 0)) (JSNum.num (arr.length : ℚ))

/-- Source `aggregateMetrics`: field-wise arithmetic mean over a batch. -/
def aggregateMetrics (results : List EvaluationMetrics) : EvaluationMetrics :=
  { precision := avg (results.map EvaluationMetrics.precision)
    «recall» := avg (results.map EvaluationMetrics.recall)
    f1Score := avg (results.map EvaluationMetrics.f1Score)
    foodDetectionAccuracy := avg (results.map EvaluationMetrics.foodDetectionAccuracy)
    quantityAccuracy := avg (results.map EvaluationMetrics.quantityAccuracy)
    avgQuantityError := avg (results.map EvaluationMetrics.avgQuantityError)
    calorieAccuracy := avg (results.map EvaluationMetrics.calorieAccuracy)
    proteinAccuracy := avg (results.map EvaluationMetrics.proteinAccuracy)
    carbsAccuracy := avg (results.map EvaluationMetrics.carbsAccuracy)
    fatAccuracy := avg (results.map EvaluationMetrics.fatAccuracy)
    overallScore := avg (results.map EvaluationMetrics.overallScore) }

/-! ## Specification-side definition for the amended C7 claim -/

/-- Keyword weight table of the amended C7 claim, written from the spec's
words: per-unit gram weight of the first matching keyword of the free-text
description, in priority order `whole`/`entire` → 150, `slice` → 30,
`piece`/`chunk` → 100, `cup` → 240, `tablespoon`/`tbsp` → 15,
`teaspoon`/`tsp` → 5, defaulting to 100 when no keyword occurs. -/
def keywordGramsPerUnit (description : String) : ℚ :=
  let lowerDesc := jsToLower description
  if jsIncludes lowerDesc ("whole") || jsIncludes lowerDesc ("entire") then 150
  else if jsIncludes lowerDesc ("slice") then 30
  else if jsIncludes lowerDesc ("piece") || jsIncludes lowerDesc ("chunk") then 100
  else if jsIncludes lowerDesc ("cup") then 240
  else if jsIncludes lowerDesc ("tablespoon") || jsIncludes lowerDesc ("tbsp") then 15
  else if jsIncludes lowerDesc ("teaspoon") || jsIncludes lowerDesc ("tsp") then 5
  else 100

/-! ## Theorems -/

/-- Claim C1 (code_bug): the spec says `calculateMetrics` never throws, but
the source's `const fatAccuracy = Math.max(0, 1 - fatAccuracy)` reads the
binding in its own initializer (temporal dead zone), so every call — for
every pair of inputs — throws a `ReferenceError` instead of returning an
`EvaluationMetrics` record. -/
theorem calculateMetrics_always_throws_C1 (aiResult : AIAnalysisResult)
    (groundTruth : GroundTruth) :
    calculateMetrics aiResult groundTruth =
      Except.error (JsError.referenceError ("fatAccuracy")) := rfl

/-- Claim C2 (code_bug): the spec requires every produced
`EvaluationMetrics` instance to satisfy the overall-score formula and
requires `fatAccuracy` not to depend on its own prior value; in the source
`fatAccuracy` is computed from its own uninitialized binding, so
`calculateMetrics` never produces an instance at all. -/
theorem calculateMetrics_no_instance_C2 (aiResult : AIAnalysisResult)
    (groundTruth : GroundTruth) (m : EvaluationMetrics) :
    calculateMetrics aiResult groundTruth ≠ Except.ok m :=
  fun hc => Except.noConfusion hc

/-- Claim C8 (confirmed): `aggregateMetrics` applied to an empty list
divides 0 by 0 (an unguarded `arr.reduce(..., 0) / arr.length`) and yields
NaN in every field of the returned record; in particular it does not return
zero metrics. -/
theorem aggregateMetrics_empty_nan_C8 :
    aggregateMetrics [] =
      { precision := JSNum.nan, «recall» := JSNum.nan, f1Score := JSNum.nan,
        foodDetectionAccuracy := JSNum.nan, quantityAccuracy := JSNum.nan,
        avgQuantityError := JSNum.nan, calorieAccuracy := JSNum.nan,
        proteinAccuracy := JSNum.nan, carbsAccuracy := JSNum.nan,
        fatAccuracy := JSNum.nan, overallScore := JSNum.nan } ∧
    (aggregateMetrics []).precision ≠ JSNum.num 0 := by
  decide

/-- Claim C5 (confirmed): `calculateNutritionAccuracy` computes, for each of
calories/protein/carbs/fat, the relative error `|ai − gt| / gt` when
`gt > 0` and `0` when `gt = 0` (more precisely, whenever `gt` is not
positive), and accuracy `max(0, 1 − error)`; in particular AI calories 500
against ground-truth 400 yields calorie accuracy `0.75`. -/
theorem calculateNutritionAccuracy_spec_C5 :
    (∀ (aiTotals : AITotals) (gt : GroundTruth),
      calculateNutritionAccuracy aiTotals gt =
        { calorieAccuracy :=
            max 0 (1 - (if 0 < gt.totalCalories then
              |aiTotals.calories - gt.totalCalories| / gt.totalCalories else 0))
          proteinAccuracy :=
            max 0 (1 - (if 0 < gt.totalProtein then
              |aiTotals.protein - gt.totalProtein| / gt.totalProtein else 0))
          carbsAccuracy :=
            max 0 (1 - (if 0 < gt.totalCarbs then
              |aiTotals.carbs - gt.totalCarbs| / gt.totalCarbs else 0))
          fatAccuracy :=
            max 0 (1 - (if 0 < gt.totalFat then
              |aiTotals.fat - gt.totalFat| / gt.totalFat else 0)) }) ∧
    (calculateNutritionAccuracy ⟨500, 0, 0, 0⟩ ⟨[], 400, 0, 0, 0⟩).calorieAccuracy = 3 / 4 := by
  constructor
  · intro aiTotals gt
    rfl
  · simp only [calculateNutritionAccuracy]
    norm_num

/-- Helper: a key that is not among the table's keys looks up to `none`. -/
theorem lookup_eq_none_of_not_mem_keys (k : String) (tbl : List (String × ℚ))
    (h : k ∉ tbl.map Prod.fst) : List.lookup k tbl = none := by
  induction tbl with
  | nil => rfl
  | cons p t ih =>
      simp only [List.map_cons, List.mem_cons, not_or] at h
      obtain ⟨h1, h2⟩ := h
      obtain ⟨k1, v1⟩ := p
      simp only [List.lookup]
      rw [beq_eq_false_iff_ne.mpr h1]
      exact ih h2

/-- Helper: a pair in a table with distinct keys is found by `lookup`. -/
theorem lookup_eq_some_of_mem (k : String) (v : ℚ) (tbl : List (String × ℚ))
    (hnodup : (tbl.map Prod.fst).Nodup) (h : (k, v) ∈ tbl) :
    List.lookup k tbl = some v := by
  induction tbl with
  | nil => cases h
  | cons p t ih =>
      obtain ⟨k1, v1⟩ := p
      simp only [List.map_cons, List.nodup_cons] at hnodup
      rcases List.mem_cons.mp h with heq | hmem
      · obtain ⟨rfl, rfl⟩ := Prod.mk.injEq .. ▸ heq
        simp [List.lookup]
      · have hk : k ≠ k1 := by
          intro hkk
          subst hkk
          exact hnodup.1 (List.mem_map.mpr ⟨(k, v), hmem, rfl⟩)
        simp only [List.lookup]
        rw [beq_eq_false_iff_ne.mpr hk]
        exact ih hnodup.2 hmem

/-- Claim C4 (confirmed): a unit whose lowercased/trimmed form is a key of
the static conversion table converts to exactly `q * table[unit]`; the
plural (trailing-`s`) form of every table key converts to the same factor
via the strip-and-retry fallback; a unit that matches no key directly and —
when it ends in `s` — whose stripped form matches no key either, falls back
to `q * 100`; and `convertToGrams(0, unit) = 0` for every unit. -/
theorem convertToGrams_spec_C4 :
    (∀ (q : ℚ) (u : String) (f : ℚ), (jsTrim (jsToLower u), f) ∈ SERVING_CONVERSIONS →
      convertToGrams q u = q * f) ∧
    (∀ (q : ℚ) (u : String) (f : ℚ), (u, f) ∈ SERVING_CONVERSIONS →
      convertToGrams q (u ++ ("s")) = q * f) ∧
    (∀ (q : ℚ) (u : String),
      jsTrim (jsToLower u) ∉ SERVING_CONVERSIONS.map Prod.fst →
      (jsEndsWith (jsTrim (jsToLower u)) ("s") = true →
        jsStripLast (jsTrim (jsToLower u)) ∉ SERVING_CONVERSIONS.map Prod.fst) →
      convertToGrams q u = q * 100) ∧
    (∀ u : String, convertToGrams 0 u = 0) := by
  refine ⟨?_, ?_, ?_, ?_⟩
  · intro q u f h
    have hsome := lookup_eq_some_of_mem _ _ _ (by decide) h
    have hf : f ≠ 0 := (show ∀ p ∈ SERVING_CONVERSIONS, p.2 ≠ 0 by decide) _ h
    simp only [convertToGrams, hsome, lookupTruthy, Option.getD_some]
    rw [if_pos (by simpa [bne_iff_ne] using hf)]
  · intro q u f h
    fin_cases h <;> rfl
  · intro q u h1 h2
    have e1 := lookup_eq_none_of_not_mem_keys _ _ h1
    simp only [convertToGrams, e1, lookupTruthy]
    by_cases hs : jsEndsWith (jsTrim (jsToLower u)) ("s") = true
    · have e2 := lookup_eq_none_of_not_mem_keys _ _ (h2 hs)
      simp [hs, e2, lookupTruthy]
    · simp [hs]
  · intro u
    simp [convertToGrams]

/-- Witness for C4 at concrete inputs: a table unit (with uppercase and
padding to exercise normalization), a plural form, an unknown unit, and a
zero quantity. -/
theorem convertToGrams_spec_C4_witness :
    convertToGrams 3 (" Cup ") = 3 * 240 ∧
    convertToGrams 3 (("cup") ++ ("s")) = 3 * 240 ∧
    convertToGrams 7 ("bowls") = 7 * 100 ∧
    convertToGrams 0 ("bowl") = 0 :=
  ⟨convertToGrams_spec_C4.1 3 (" Cup ") 240 (by decide),
   convertToGrams_spec_C4.2.1 3 ("cup") 240 (by decide),
   convertToGrams_spec_C4.2.2.1 7 ("bowls") (by decide) (by decide),
   convertToGrams_spec_C4.2.2.2 ("bowl")⟩

/-- Claim C6 (corrected): for every `NutritionData` whose calories value is
0, `calculateMacroPercentages` substitutes 1 as the denominator (avoiding
division by zero); the returned percentages are then
`round(macroCalories * 100)` and are all 0 when protein, carbs and fat are
all 0 — but not for arbitrary macros, contrary to the original claim. -/
theorem calculateMacroPercentages_zero_calories_C6 (n : NutritionData) (h : n.calories = 0) :
    calculateMacroPercentages n =
      { proteinPercent := jsRound (n.protein * 4 / 1 * 100)
        carbsPercent := jsRound (n.carbs * 4 / 1 * 100)
        fatPercent := jsRound (n.fat * 9 / 1 * 100) } ∧
    (n.protein = 0 → n.carbs = 0 → n.fat = 0 →
      calculateMacroPercentages n =
        { proteinPercent := 0, carbsPercent := 0, fatPercent := 0 }) := by
  constructor
  · simp [calculateMacroPercentages, h]
  · intro hp hc hf
    simp [calculateMacroPercentages, h, hp, hc, hf]
    norm_num [jsRound]

/-- Witness for C6: the all-zero profile yields all-zero percentages. -/
theorem calculateMacroPercentages_zero_calories_C6_witness :
    calculateMacroPercentages ⟨0, 0, 0, 0, none, none, none⟩ =
      { proteinPercent := 0, carbsPercent := 0, fatPercent := 0 } :=
  (calculateMacroPercentages_zero_calories_C6 ⟨0, 0, 0, 0, none, none, none⟩ rfl).2 rfl rfl rfl

/-- Counterexample for C6 as stated: calories 0 with protein 1 gives
`proteinPercent = 400`, not 0. -/
theorem calculateMacroPercentages_counterexample_C6 :
    (calculateMacroPercentages ⟨0, 1, 0, 0, none, none, none⟩).proteinPercent = 400 ∧
    (400 : ℤ) ≠ 0 := by
  constructor
  · norm_num [calculateMacroPercentages, jsRound]
  · decide

/-- Claim C7 (corrected): for every description and quantity,
`estimateGramsFromDescription` returns `quantity *` the per-unit weight of
the first matching keyword in priority order, where the first priority
class is `whole`/`entire` (the source also matches `entire`, which the
original claim omitted), and defaults to `quantity * 100`. -/
theorem estimateGrams_keyword_table_C7 (description : String) (quantity : ℚ) :
    estimateGramsFromDescription description quantity =
      quantity * keywordGramsPerUnit description := by
  simp only [estimateGramsFromDescription, keywordGramsPerUnit]
  split_ifs <;> rfl

/-- Counterexample for C7 as stated: the description `one entire apple`
contains none of the nine keywords listed in the claim, yet the function
returns `2 * 150 = 300`, not `2 * 100`. -/
theorem estimateGrams_counterexample_C7 :
    ([("whole"), ("slice"), ("piece"), ("chunk"), ("cup"), ("tablespoon"), ("tbsp"),
        ("teaspoon"), ("tsp")].all
      (fun k => !jsIncludes (jsToLower ("one entire apple")) k)) = true ∧
    estimateGramsFromDescription ("one entire apple") 2 = 300 ∧
    (300 : ℚ) ≠ 2 * 100 := by
  refine ⟨by decide, ?_, by norm_num⟩
  have h : estimateGramsFromDescription ("one entire apple") 2 = 2 * 150 := rfl
  rw [h]; norm_num

/-- Claim C9 (corrected): an optional nutrient present with value 0 in the
input produces an absent output field in `calculateNutritionForServing`,
and an optional nutrient whose accumulated total is 0 is absent in
`calculateTotalNutrition`'s output — but (contrary to the claim's final
consequence) outputs can still carry a present zero, see the
counterexample. -/
theorem optional_zero_fields_C9 (item : FoodItem) (serving : ServingInfo)
    (items : List FoodItemWithServing) :
    (item.fiber = some 0 → (calculateNutritionForServing item serving).fiber = none) ∧
    (item.sugar = some 0 → (calculateNutritionForServing item serving).sugar = none) ∧
    (item.sodium = some 0 → (calculateNutritionForServing item serving).sodium = none) ∧
    ((totalNutritionFold items).fiber = some 0 → (calculateTotalNutrition items).fiber = none) ∧
    ((totalNutritionFold items).sugar = some 0 → (calculateTotalNutrition items).sugar = none) ∧
    ((totalNutritionFold items).sodium = some 0 → (calculateTotalNutrition items).sodium = none) := by
  refine ⟨fun h => ?_, fun h => ?_, fun h => ?_, fun h => ?_, fun h => ?_, fun h => ?_⟩
  · simp [calculateNutritionForServing, h, optTruthy]
  · simp [calculateNutritionForServing, h, optTruthy]
  · simp [calculateNutritionForServing, h, optTruthy]
  · simp [calculateTotalNutrition, h, orZero]
  · simp [calculateTotalNutrition, h, orZero]
  · simp [calculateTotalNutrition, h, orZero]

/-- Witness for C9: zero-valued optional inputs and an empty batch yield
absent optional outputs. -/
theorem optional_zero_fields_C9_witness :
    (calculateNutritionForServing ⟨("x"), 0, 0, 0, 0, some 0, some 0, some 0⟩
        ⟨1, ("g"), 100⟩).fiber = none ∧
    (calculateTotalNutrition []).fiber = none :=
  ⟨(optional_zero_fields_C9 ⟨("x"), 0, 0, 0, 0, some 0, some 0, some 0⟩ ⟨1, ("g"), 100⟩ []).1 rfl,
   (optional_zero_fields_C9 ⟨("x"), 0, 0, 0, 0, some 0, some 0, some 0⟩ ⟨1, ("g"), 100⟩ []).2.2.2.1 rfl⟩

/-- Counterexample for C9's final consequence: a nonzero fiber scaled by a
zero-gram serving, and a small positive fiber total that rounds to zero,
both produce a present 0 in the output. -/
theorem optional_zero_output_counterexample_C9 :
    (calculateNutritionForServing ⟨("x"), 0, 0, 0, 0, some 1, none, none⟩
        ⟨1, ("g"), 0⟩).fiber = some 0 ∧
    (calculateTotalNutrition [⟨⟨("x"), 0, 0, 0, 0, some (1/250), none, none⟩,
        ⟨1, ("g"), 100⟩⟩]).fiber = some 0 := by
  constructor
  · norm_num [calculateNutritionForServing, optTruthy, orZero]
  · norm_num [calculateTotalNutrition, totalNutritionFold, calculateNutritionForServing,
      optTruthy, orZero, jsRound]

/-- Helper: the empty needle is a substring of every character list. -/
theorem containsChars_nil (l : List Char) : containsChars l [] = true := by
  cases l <;> rfl

/-- Helper: JavaScript `s.includes("")` is true for every `s`. -/
theorem jsIncludes_empty (s : String) : jsIncludes s ("") = true :=
  containsChars_nil s.data

/-- Helper: a food name that normalizes to the empty string satisfies
`foodsMatch` against every name (the substring rule fires). -/
theorem foodsMatch_of_norm_empty {d : String} (h : normalizeFood d = "") (a : String) :
    foodsMatch d a = true := by
  simp only [foodsMatch, h]
  by_cases hc : ("" : String) = normalizeFood a
  · simp [hc]
  · simp [hc, jsIncludes_empty]

/-- Helper invariant of the inner true-positive loop: the true-positive
count equals the number of claimed indices, the claimed indices stay
distinct, and they stay below the bound `N` when the scan starts at an
index with room below `N`. -/
theorem tpInnerLoop_inv (d : String) (N : ℕ) :
    ∀ (l : List String) (i : ℕ) (st : ℕ × List ℕ),
      i + l.length ≤ N →
      st.1 = st.2.length → st.2.Nodup → (∀ j ∈ st.2, j < N) →
      (tpInnerLoop d l i st).1 = (tpInnerLoop d l i st).2.length ∧
        (tpInnerLoop d l i st).2.Nodup ∧ ∀ j ∈ (tpInnerLoop d l i st).2, j < N := by
  intro l
  induction l with
  | nil => intro i st _ h1 h2 h3; exact ⟨h1, h2, h3⟩
  | cons a rest ih =>
      intro i st hN h1 h2 h3
      have hN' : i + (rest.length + 1) ≤ N := by simpa using hN
      simp only [tpInnerLoop]
      by_cases hc : (!st.2.contains i && foodsMatch d a) = true
      · rw [if_pos hc]
        have hni : i ∉ st.2 := by
          have hb := ((Bool.and_eq_true _ _).mp hc).1
          simpa using hb
        refine ih (i + 1) (st.1 + 1, i :: st.2) (by omega) ?_ ?_ ?_
        · simpa using h1
        · exact List.nodup_cons.mpr ⟨hni, h2⟩
        · intro j hj
          rcases List.mem_cons.mp hj with rfl | hj2
          · omega
          · exact h3 j hj2
      · rw [if_neg hc]
        exact ih (i + 1) st (by omega) h1 h2 h3

/-- Helper invariant of the whole true-positive pass, from the empty
starting state. -/
theorem tpLoop_inv (ds as : List String) :
    (tpLoop ds as).1 = (tpLoop ds as).2.length ∧ (tpLoop ds as).2.Nodup ∧
      ∀ j ∈ (tpLoop ds as).2, j < as.length := by
  have hgen : ∀ (l : List String) (st : ℕ × List ℕ),
      st.1 = st.2.length → st.2.Nodup → (∀ j ∈ st.2, j < as.length) →
      ((l.foldl (fun st detected => tpInnerLoop detected as 0 st) st).1 =
          (l.foldl (fun st detected => tpInnerLoop detected as 0 st) st).2.length ∧
        (l.foldl (fun st detected => tpInnerLoop detected as 0 st) st).2.Nodup ∧
        ∀ j ∈ (l.foldl (fun st detected => tpInnerLoop detected as 0 st) st).2,
          j < as.length) := by
    intro l
    induction l with
    | nil => intro st h1 h2 h3; exact ⟨h1, h2, h3⟩
    | cons dd rest ih =>
        intro st h1 h2 h3
        simp only [List.foldl_cons]
        obtain ⟨g1, g2, g3⟩ := tpInnerLoop_inv dd as.length as 0 st (by simp) h1 h2 h3
        exact ih _ g1 g2 g3
  simpa [tpLoop] using hgen ds (0, []) rfl List.nodup_nil (by simp)

/-- Helper: the true-positive count never exceeds the number of actual
(ground-truth) foods, because each actual index is claimed at most once. -/
theorem tp_le_actual (ds as : List String) : (tpLoop ds as).1 ≤ as.length := by
  obtain ⟨h1, h2, h3⟩ := tpLoop_inv ds as
  rw [h1]
  have hsub : (tpLoop ds as).2.toFinset ⊆ Finset.range as.length := by
    intro j hj
    simp only [Finset.mem_range]
    exact h3 j (List.mem_toFinset.mp hj)
  have hcard := Finset.card_le_card hsub
  rwa [List.toFinset_card_of_nodup h2, Finset.card_range] at hcard

/-- Claim C3 (corrected): in the true-positive pass each ground-truth index
is claimed at most once, but — the source inner loop having no break — a
single detected name may claim several ground-truth names.  Hence for every
input `truePositives ≤ |actualFoods|`, `falseNegatives ≥ 0` and
`recall ≤ 1` and `foodDetectionAccuracy ≤ 1`, while `falsePositives`
remains the difference `|detectedFoods| − truePositives` (possibly
negative) and `precision` can exceed 1, contrary to the original claim. -/
theorem truePositive_pass_bounds_C3 (ai : AIAnalysisResult) (gt : GroundTruth) :
    truePositivesOf ai gt ≤ (actualFoodsOf gt).length ∧
    falsePositivesOf ai gt = (detectedFoodsOf ai).length - truePositivesOf ai gt ∧
    0 ≤ falseNegativesOf ai gt ∧
    recallOf ai gt ≤ 1 ∧
    foodDetectionAccuracyOf ai gt ≤ 1 := by
  have hle : truePositivesOf ai gt ≤ (actualFoodsOf gt).length :=
    tp_le_actual (detectedFoodsOf ai) (actualFoodsOf gt)
  refine ⟨hle, rfl, ?_, ?_, ?_⟩
  · simp only [falseNegativesOf]
    omega
  · simp only [recallOf]
    split
    · rename_i hpos
      have hL : (0:ℚ) < ((actualFoodsOf gt).length : ℚ) := by
        have hn : 0 < (actualFoodsOf gt).length := lt_of_lt_of_le hpos hle
        exact_mod_cast hn
      have hden : (truePositivesOf ai gt : ℚ) + ((falseNegativesOf ai gt : ℤ) : ℚ) =
          ((actualFoodsOf gt).length : ℚ) := by
        simp only [falseNegativesOf]
        push_cast
        ring
      rw [hden, div_le_one hL]
      exact_mod_cast hle
    · norm_num
  · simp only [foodDetectionAccuracyOf]
    split
    · rename_i hpos
      have hL : (0:ℚ) < ((actualFoodsOf gt).length : ℚ) := by exact_mod_cast hpos
      rw [div_le_one hL]
      exact_mod_cast hle
    · norm_num

/-- Counterexample for C3 as stated: one detected food `a` against
ground-truth foods `a` and `ab` yields `truePositives = 2 > 1 =
|detectedFoods|`, `falsePositives = -1 < 0` and `precision = 2 > 1`. -/
theorem truePositive_pass_counterexample_C3 :
    truePositivesOf ⟨[⟨("a"), 1, ("g"), 1⟩], 1, none⟩
        ⟨[⟨("a"), 1, ("g"), 0, 0, 0, 0⟩, ⟨("ab"), 1, ("g"), 0, 0, 0, 0⟩], 0, 0, 0, 0⟩ = 2 ∧
    (detectedFoodsOf ⟨[⟨("a"), 1, ("g"), 1⟩], 1, none⟩).length = 1 ∧
    falsePositivesOf ⟨[⟨("a"), 1, ("g"), 1⟩], 1, none⟩
        ⟨[⟨("a"), 1, ("g"), 0, 0, 0, 0⟩, ⟨("ab"), 1, ("g"), 0, 0, 0, 0⟩], 0, 0, 0, 0⟩ = -1 ∧
    precisionOf ⟨[⟨("a"), 1, ("g"), 1⟩], 1, none⟩
        ⟨[⟨("a"), 1, ("g"), 0, 0, 0, 0⟩, ⟨("ab"), 1, ("g"), 0, 0, 0, 0⟩], 0, 0, 0, 0⟩ = 2 := by
  have h2 : truePositivesOf ⟨[⟨("a"), 1, ("g"), 1⟩], 1, none⟩
      ⟨[⟨("a"), 1, ("g"), 0, 0, 0, 0⟩, ⟨("ab"), 1, ("g"), 0, 0, 0, 0⟩], 0, 0, 0, 0⟩ = 2 := by
    decide
  have hf : falsePositivesOf ⟨[⟨("a"), 1, ("g"), 1⟩], 1, none⟩
      ⟨[⟨("a"), 1, ("g"), 0, 0, 0, 0⟩, ⟨("ab"), 1, ("g"), 0, 0, 0, 0⟩], 0, 0, 0, 0⟩ = -1 := by
    decide
  refine ⟨h2, by decide, hf, ?_⟩
  simp only [precisionOf, h2, hf]
  norm_num

/-- Helper: when the detected name matches every actual name, the inner
loop claims every remaining index, adding the rest of the list's length to
the true-positive count. -/
theorem tpInnerLoop_all_match (d : String) (hall : ∀ a, foodsMatch d a = true) :
    ∀ (l : List String) (i t : ℕ) (m : List ℕ),
      (∀ j ∈ m, j < i) →
      (tpInnerLoop d l i (t, m)).1 = t + l.length := by
  intro l
  induction l with
  | nil => intro i t m _; simp [tpInnerLoop]
  | cons a rest ih =>
      intro i t m hm
      have hni : i ∉ m := fun hin => lt_irrefl i (hm i hin)
      have hcontains : m.contains i = false := by simpa using hni
      simp only [tpInnerLoop, hcontains, hall a, Bool.not_false, Bool.and_self, if_pos]
      have hrec := ih (i + 1) (t + 1) (i :: m) (by
        intro j hj
        rcases List.mem_cons.mp hj with rfl | hj2
        · omega
        · exact Nat.lt_succ_of_lt (hm j hj2))
      rw [hrec]
      simp
      omega

/-- Claim C10 (confirmed): a detected food whose name normalizes to the
empty string satisfies `foodsMatch` against every ground-truth name via the
substring rule, so in the true-positive pass that single detected food
claims every not-yet-claimed ground-truth food: `truePositives` equals the
full ground-truth count. -/
theorem empty_name_matches_all_C10 (d : String) (gt : GroundTruth) (q : ℚ) (u : String) (c conf : ℚ)
    (h : normalizeFood d = "") :
    (∀ a : String, foodsMatch d a = true) ∧
    truePositivesOf ⟨[⟨d, q, u, c⟩], conf, none⟩ gt = gt.foods.length := by
  refine ⟨foodsMatch_of_norm_empty h, ?_⟩
  have hall : ∀ a, foodsMatch (normalizeFood d) a = true := by
    apply foodsMatch_of_norm_empty
    rw [h]
    decide
  simp only [truePositivesOf, tpLoop, detectedFoodsOf, List.map_cons, List.map_nil,
    List.foldl_cons, List.foldl_nil]
  rw [tpInnerLoop_all_match (normalizeFood d) hall (actualFoodsOf gt) 0 0 [] (by simp)]
  simp [actualFoodsOf]

/-- Witness for C10: a whitespace-only detected name matches `chicken` and
claims both ground-truth foods of a concrete two-food benchmark. -/
theorem empty_name_matches_all_C10_witness :
    foodsMatch (" ") ("chicken") = true ∧
    truePositivesOf ⟨[⟨(" "), 1, ("g"), 1⟩], 1, none⟩
      ⟨[⟨("rice"), 1, ("g"), 0, 0, 0, 0⟩, ⟨("egg"), 1, ("g"), 0, 0, 0, 0⟩], 0, 0, 0, 0⟩ = 2 :=
  ⟨(empty_name_matches_all_C10 (" ")
      ⟨[⟨("rice"), 1, ("g"), 0, 0, 0, 0⟩, ⟨("egg"), 1, ("g"), 0, 0, 0, 0⟩], 0, 0, 0, 0⟩
      1 ("g") 1 1 (by decide)).1 ("chicken"),
   (empty_name_matches_all_C10 (" ")
      ⟨[⟨("rice"), 1, ("g"), 0, 0, 0, 0⟩, ⟨("egg"), 1, ("g"), 0, 0, 0, 0⟩], 0, 0, 0, 0⟩
      1 ("g") 1 1 (by decide)).2⟩
